import Mathlib

/-!
Verification development for the fraud-detection dashboard
(`src/dashboard/app.py`): a shallow embedding of its data model and of
the load / filter / aggregate / export pipeline, with theorems settling
the specification claims.

Modelling conventions:
* A timestamp is a `Nat`: seconds since an epoch.  The calendar date of a
  timestamp is `t / 86400`, its hour-of-day `t % 86400 / 3600`, and the
  hour-resolution bucket used by `resample` is `t / 3600`.
  A bare calendar date `d` (as produced by `pd.to_datetime` on a date
  string) denotes midnight, i.e. the instant `d * 86400`.
* Numeric statistics are carried in `ℚ`; the Python floats are modelled
  exactly, and the 0.3 alert threshold is the rational 3/10.
* A pandas frame is a list of rows plus the list of column names.
-/

/-- One row of the predictions table: the four source columns
`TransactionID`, `Amount`, `Prediction`, `Timestamp` (already coerced to
a date/time, represented as epoch seconds). -/
structure Row where
  tid : Nat
  amount : Int
  prediction : Int
  timestamp : Nat
deriving DecidableEq, Repr

/-- The dropdown value for the prediction filter: the string `All` is the
no-op; otherwise a numeric value compared against the `Prediction`
column (the UI offers 1 = Fraud and 0 = Normal). -/
inductive PredFilter where
  | all : PredFilter
  | value : Int → PredFilter
deriving DecidableEq, Repr

/-- A raw CSV row as read by `pd.read_csv`: the `Timestamp` cell is
`none` when `pd.to_datetime` cannot coerce it. -/
structure RawRow where
  tid : Nat
  amount : Int
  prediction : Int
  tsCell : Option Nat
deriving DecidableEq, Repr

/-- The state of the underlying storage seen by `load_data`:
the file may be missing, reading it may fail, or it yields raw rows. -/
inductive Storage where
  | missing : Storage
  | readError : Storage
  | content : List RawRow → Storage
deriving DecidableEq, Repr

/-- A data frame: its column names and its rows. -/
structure Frame where
  cols : List String
  rows : List Row
deriving DecidableEq, Repr

/-- The four declared columns of the predictions table. -/
def theColumns : List String :=
  ["TransactionID", "Amount", "Prediction", "Timestamp"]

/-- The empty frame returned on every failure path of `load_data`:
the four columns declared, zero rows. -/
def emptyFrame : Frame := ⟨theColumns, []⟩

/-- Coercing one raw row: fails iff its timestamp cell is unparseable. -/
def parseRaw (r : RawRow) : Option Row :=
  (r.tsCell).map fun t => ⟨r.tid, r.amount, r.prediction, t⟩

/-- `load_data` (app.py lines 15–23): missing file → empty frame; any
read or timestamp-coercion failure → empty frame (the whole load fails
closed; `List.mapM` returns `none` if any single row fails, so no
partially-parsed rows survive); otherwise the parsed rows. -/
def load_data : Storage → Frame
  | .missing => emptyFrame
  | .readError => emptyFrame
  | .content raws =>
    match raws.mapM parseRaw with
    | none => emptyFrame
    | some rows => ⟨theColumns, rows⟩

/-- The calendar date (day number) of a timestamp, as `.dt.date`. -/
def dateOf (t : Nat) : Nat := t / 86400

/-- The hour-of-day (0–23) of a timestamp, as `.dt.hour`. -/
def hourOfDay (t : Nat) : Nat := t % 86400 / 3600

/-- The hour-resolution bucket of a timestamp, as produced by
one-hour resampling (an absolute hour index). -/
def hourFloor (t : Nat) : Nat := t / 3600

/-- The dashboard filter (app.py lines 152–158): if the dropdown is not
`All`, keep rows whose `Prediction` equals the dropdown value; if a
start date is set, keep rows with `Timestamp >= start` (midnight of the
start date); if an end date is set, keep rows with `Timestamp <= end`
(midnight of the end date — no end-of-day component is added). -/
def applyFilter (tbl : List Row) (pf : PredFilter) (sd ed : Option Nat) :
    List Row :=
  let t1 := match pf with
    | .all => tbl
    | .value v => tbl.filter fun r => r.prediction == v
  let t2 := match sd with
    | none => t1
    | some d => t1.filter fun r => d * 86400 ≤ r.timestamp
  match ed with
  | none => t2
  | some d => t2.filter fun r => r.timestamp ≤ d * 86400

/-- The exporter's filter (app.py lines 239–244), written out separately
so that its agreement with the dashboard filter is a theorem. -/
def exportFilter (tbl : List Row) (pf : PredFilter) (sd ed : Option Nat) :
    List Row :=
  let t1 := match pf with
    | .all => tbl
    | .value v => tbl.filter fun r => r.prediction == v
  let t2 := match sd with
    | none => t1
    | some d => t1.filter fun r => d * 86400 ≤ r.timestamp
  match ed with
  | none => t2
  | some d => t2.filter fun r => r.timestamp ≤ d * 86400

/-- The label mapping `{0: Normal, 1: Fraud}` (app.py line 163); any
other prediction value maps to no label (pandas `NaN`) and is dropped by
the group-by. -/
def labelOf (p : Int) : Option String :=
  if p = 0 then some "Normal" else if p = 1 then some "Fraud" else none

/-- Rows of the table falling on the given calendar date. -/
def rowsOnDate (tbl : List Row) (d : Int) : List Row :=
  tbl.filter fun r => (dateOf r.timestamp : Int) == d

/-- The fraud rows (`Prediction == 1`) of a table. -/
def fraudRows (tbl : List Row) : List Row :=
  tbl.filter fun r => r.prediction == 1

/-- Maximum timestamp of a table (`df["Timestamp"].max()`); meaningful
only for non-empty tables. -/
def maxTs (tbl : List Row) : Nat :=
  tbl.foldl (fun a r => max a r.timestamp) 0

/-- One-hour resampling of a table into `(hour-bucket, row-count)`
points, as `resample("H").size()`: empty input gives the empty series;
otherwise one point for every hour bucket from the earliest to the
latest observed bucket (interior gaps appear with count 0, buckets
outside the observed range do not appear). -/
def hourlySeries (tbl : List Row) : List (Nat × Nat) :=
  match tbl.map (fun r => hourFloor r.timestamp) with
  | [] => []
  | h :: hs =>
    let lo := hs.foldl min h
    let hi := hs.foldl max h
    (List.range (hi + 1 - lo)).map fun k =>
      (lo + k, ((h :: hs).filter fun x => x == lo + k).length)

/-- "Today" for the comparison chart: the calendar date of the maximum
timestamp in the filtered table (app.py line 199), not the wall clock. -/
def todayOf (tbl : List Row) : Nat := dateOf (maxTs tbl)

/-- Hourly fraud series of the filtered table's own most recent date. -/
def todaySeries (tbl : List Row) : List (Nat × Nat) :=
  hourlySeries (fraudRows (rowsOnDate tbl (todayOf tbl)))

/-- Hourly fraud series of the day before the table's most recent date
(app.py line 200: `yesterday = today - timedelta(days=1)`). -/
def yesterdaySeries (tbl : List Row) : List (Nat × Nat) :=
  hourlySeries (fraudRows (rowsOnDate tbl ((todayOf tbl : Int) - 1)))

/-- Deduplicate a list keeping first occurrences, for the group-by keys. -/
def dedup (l : List Nat) : List Nat :=
  l.foldl (fun acc x => if x ∈ acc then acc else acc ++ [x]) []

/-- The day×hour fraud matrix (app.py lines 214–216): restrict to fraud
rows, key each by (calendar date, hour-of-day), and fill every observed
day × observed hour cell with its count (absent combinations get 0 via
`unstack(fill_value=0)`). -/
def heatmapOf (tbl : List Row) : List ((Nat × Nat) × Nat) :=
  let fr := fraudRows tbl
  let days := dedup (fr.map fun r => dateOf r.timestamp)
  let hours := dedup (fr.map fun r => hourOfDay r.timestamp)
  days.flatMap fun d => hours.map fun h =>
    ((d, h),
      (fr.filter fun r =>
        dateOf r.timestamp == d && hourOfDay r.timestamp == h).length)

/-- Insertion step for the most-recent-first table ordering. -/
def insertDesc (r : Row) : List Row → List Row
  | [] => [r]
  | a :: as =>
    if a.timestamp ≤ r.timestamp then r :: a :: as else a :: insertDesc r as

/-- `sort_values(by='Timestamp', ascending=False)` (app.py line 191). -/
def sortByTsDesc (tbl : List Row) : List Row :=
  tbl.foldr insertDesc []

/-- The aggregate snapshot computed from a non-empty filtered table
(app.py lines 163–224). -/
structure Snapshot where
  n0 : Nat
  n1 : Nat
  total : Nat
  fraudCount : Int
  accuracy : ℚ
  fraudPct : ℚ
  alert : Bool
  today : Nat
  yesterday : Int
  todayFraud : List (Nat × Nat)
  yesterdayFraud : List (Nat × Nat)
  heatmap : List ((Nat × Nat) × Nat)
  tableRows : List Row
deriving DecidableEq, Repr

/-- The aggregation stage: label counts by group-by on the mapped label,
`total = len(df)`, `fraud_count = df["Prediction"].sum()` (a column sum,
not a row count), `accuracy = (1 - fraud_count/total) * 100`,
`fraud % = fraud_count/total * 100`, alert iff
`fraud_count/total >= 0.3`, the today/yesterday hourly fraud series and
the day×hour heatmap, and the rows sorted most-recent-first. -/
def computeSnapshot (f : List Row) : Snapshot :=
  let total := f.length
  let fc : Int := (f.map fun r => r.prediction).sum
  let ratio : ℚ := (fc : ℚ) / (total : ℚ)
  { n0 := (f.filter fun r => labelOf r.prediction == some "Normal").length
    n1 := (f.filter fun r => labelOf r.prediction == some "Fraud").length
    total := total
    fraudCount := fc
    accuracy := (1 - ratio) * 100
    fraudPct := ratio * 100
    alert := decide ((3 : ℚ) / 10 ≤ ratio)
    today := todayOf f
    yesterday := (todayOf f : Int) - 1
    todayFraud := todaySeries f
    yesterdayFraud := yesterdaySeries f
    heatmap := heatmapOf f
    tableRows := sortByTsDesc f }

/-- The outcome of one dashboard refresh: either the "no data" early
return (with its message) or a computed snapshot. -/
inductive DashResult where
  | noData : String → DashResult
  | snapshot : Snapshot → DashResult
deriving DecidableEq, Repr

/-- `update_dashboard` (app.py lines 147–226): load, bail out on an
empty load, filter, bail out on an empty filtered table, otherwise
aggregate.  The divisions by `total` live only in `computeSnapshot`,
which is reached only with a non-empty table. -/
def update_dashboard (st : Storage) (pf : PredFilter) (sd ed : Option Nat) :
    DashResult :=
  let df := load_data st
  if df.rows.isEmpty then .noData "No data yet"
  else
    let f := applyFilter df.rows pf sd ed
    if f.isEmpty then .noData "No data found for filters."
    else .snapshot (computeSnapshot f)

/-!
Object-level model of the pandas frame objects touched by one dashboard
run, for the in-place-mutation question.  Pandas semantics modelled:
boolean row masking (`df[mask]`) allocates a new frame object and
rebinding `df` to it drops the alias to the previous object; column
assignment (`df[c] = ...`) mutates, in place, the object `df` currently
denotes.  The run state tracks the object returned by `load_data`, the
object `df` denotes, and whether the two are the same object.
-/

/-- A frame object: its rows (the four base columns) and the names of
the columns added to it beyond the base four. -/
structure ObjFrame where
  rows : List Row
  extra : List String
deriving DecidableEq, Repr

/-- The object state of one dashboard run: the loaded frame object, the
object the variable `df` denotes, and whether `df` still denotes the
loaded object itself. -/
structure RunState where
  loaded : ObjFrame
  cur : ObjFrame
  aliased : Bool
deriving DecidableEq, Repr

/-- `df = df[mask]`: masking allocates a copy of the kept rows (with all
current columns), and `df` now denotes that fresh object — never the
loaded one. -/
def maskS (s : RunState) (p : Row → Bool) : RunState :=
  ⟨s.loaded, ⟨s.cur.rows.filter p, s.cur.extra⟩, false⟩

/-- `df[c] = ...`: add column `c`, in place, to the object `df`
denotes; when `df` is still the loaded object, the loaded object gains
the column too, because it is the same object. -/
def setColS (s : RunState) (c : String) : RunState :=
  if s.aliased then
    ⟨⟨s.loaded.rows, s.loaded.extra ++ [c]⟩,
     ⟨s.cur.rows, s.cur.extra ++ [c]⟩, true⟩
  else
    ⟨s.loaded, ⟨s.cur.rows, s.cur.extra ++ [c]⟩, false⟩

/-- The filter stage (lines 153–158): each filter line that fires
rebinds `df` to a freshly masked copy.  The today/yesterday masks
(lines 202–203), the group-bys and the sort produce fresh objects bound
to other variables and never mutate anything, so they do not appear in
the run state. -/
def filterStage (s0 : RunState) (pf : PredFilter) (sd ed : Option Nat) :
    RunState :=
  let s1 := match pf with
    | .all => s0
    | .value v => maskS s0 fun r => r.prediction == v
  let s2 := match sd with
    | none => s1
    | some d => maskS s1 fun r => d * 86400 ≤ r.timestamp
  match ed with
  | none => s2
  | some d => maskS s2 fun r => r.timestamp ≤ d * 86400

/-- The column assignments of the aggregation stage: `Label` and `Time`
(lines 163–164), then `Hour` and `Day` (lines 214–215), all applied to
the object `df` denotes. -/
def colStage (s : RunState) : RunState :=
  setColS (setColS (setColS (setColS s "Label") "Time") "Hour") "Day"

/-- The object state after one `update_dashboard` run: starts with `df`
denoting the loaded frame itself, applies the filter stage, and — when
neither emptiness guard fires — the column assignments. -/
def update_run (st : Storage) (pf : PredFilter) (sd ed : Option Nat) :
    RunState :=
  let f0 : ObjFrame := ⟨(load_data st).rows, []⟩
  let s0 : RunState := ⟨f0, f0, true⟩
  if f0.rows.isEmpty then s0
  else
    let s3 := filterStage s0 pf sd ed
    if s3.cur.rows.isEmpty then s3
    else colStage s3

/-- Concrete sample data: the two-row table of the specification's
worked example (both rows on calendar day 100, at 10:00:00 and
10:05:00). -/
def sampleRows : List Row :=
  [⟨1, 50, 0, 8676000⟩, ⟨2, 999, 1, 8676300⟩]

/-- Storage whose load succeeds with `sampleRows`. -/
def sampleStorage : Storage :=
  .content [⟨1, 50, 0, some 8676000⟩, ⟨2, 999, 1, some 8676300⟩]

/-- A two-date sample: a fraud row on day 100 and a fraud row on day
101, the table's most recent date. -/
def sampleRows2 : List Row :=
  [⟨1, 50, 1, 8676000⟩, ⟨2, 999, 1, 8762700⟩]

/-- A ten-row table with exactly three fraud rows (all on day 100). -/
def rows10a : List Row :=
  [⟨1, 10, 1, 8640000⟩, ⟨2, 10, 1, 8643600⟩, ⟨3, 10, 1, 8647200⟩,
   ⟨4, 10, 0, 8650800⟩, ⟨5, 10, 0, 8654400⟩, ⟨6, 10, 0, 8658000⟩,
   ⟨7, 10, 0, 8661600⟩, ⟨8, 10, 0, 8665200⟩, ⟨9, 10, 0, 8668800⟩,
   ⟨10, 10, 0, 8672400⟩]

/-- A ten-row table with exactly two fraud rows (all on day 100). -/
def rows10b : List Row :=
  [⟨1, 10, 1, 8640000⟩, ⟨2, 10, 1, 8643600⟩, ⟨3, 10, 0, 8647200⟩,
   ⟨4, 10, 0, 8650800⟩, ⟨5, 10, 0, 8654400⟩, ⟨6, 10, 0, 8658000⟩,
   ⟨7, 10, 0, 8661600⟩, ⟨8, 10, 0, 8665200⟩, ⟨9, 10, 0, 8668800⟩,
   ⟨10, 10, 0, 8672400⟩]

/-- The CSV header line written by `to_csv`. -/
def csvHeader : String := "TransactionID,Amount,Prediction,Timestamp"

/-- CSV serialization of one row: all four original fields. -/
def rowCsv (r : Row) : String :=
  toString r.tid ++ "," ++ toString r.amount ++ "," ++
    toString r.prediction ++ "," ++ toString r.timestamp

/-- `download_report` (app.py lines 237–248): re-load, re-filter with
the exporter's copy of the filter, and serialize to a CSV (header line
followed by the filtered rows in their current order) under a file name
embedding the generation timestamp `now`.  Total: it always succeeds. -/
def download_report (st : Storage) (pf : PredFilter) (sd ed : Option Nat)
    (now : String) : String × List String :=
  let df := exportFilter (load_data st).rows pf sd ed
  ("fraud_report_" ++ now ++ ".csv", csvHeader :: df.map rowCsv)

/-! ### Helper lemmas -/

/-- Membership characterization of the dashboard filter. -/
theorem mem_applyFilter (tbl : List Row) (pf : PredFilter) (sd ed : Option Nat)
    (r : Row) :
    r ∈ applyFilter tbl pf sd ed ↔
      r ∈ tbl ∧ (∀ v, pf = .value v → r.prediction = v)
        ∧ (∀ d, sd = some d → d * 86400 ≤ r.timestamp)
        ∧ (∀ d, ed = some d → r.timestamp ≤ d * 86400) := by
  cases pf <;> cases sd <;> cases ed <;>
    simp [applyFilter, List.mem_filter, and_assoc] <;> tauto

/-- The exporter re-implements the dashboard filter verbatim. -/
theorem exportFilter_eq_applyFilter (tbl : List Row) (pf : PredFilter)
    (sd ed : Option Nat) :
    exportFilter tbl pf sd ed = applyFilter tbl pf sd ed := rfl

/-- When every prediction is 0 or 1, the sum of the prediction column is
the number of rows predicted 1. -/
theorem sum_pred_eq_count (f : List Row)
    (h01 : ∀ r ∈ f, r.prediction = 0 ∨ r.prediction = 1) :
    (f.map fun r => r.prediction).sum
      = ((f.filter fun r => r.prediction == 1).length : Int) := by
  induction f with
  | nil => rfl
  | cons a t ih =>
    have ha := h01 a (by simp)
    have ht := ih fun r hr => h01 r (by simp [hr])
    rcases ha with h | h <;>
      simp [List.filter_cons, h, ht, Int.add_comm]

/-- When every prediction is 0 or 1, the 0-rows and 1-rows partition the
table. -/
theorem filter01_length (f : List Row)
    (h01 : ∀ r ∈ f, r.prediction = 0 ∨ r.prediction = 1) :
    (f.filter fun r => r.prediction == 0).length
      + (f.filter fun r => r.prediction == 1).length = f.length := by
  induction f with
  | nil => rfl
  | cons a t ih =>
    have ha := h01 a (by simp)
    have ht := ih fun r hr => h01 r (by simp [hr])
    rcases ha with h | h <;>
      simp [List.filter_cons, h] <;> omega

/-- The label test `labelOf p == some "Normal"` is the test `p == 0`. -/
theorem labelOf_beq_normal (p : Int) :
    (labelOf p == some "Normal") = (p == 0) := by
  by_cases h0 : p = 0
  · subst h0; decide
  · by_cases h1 : p = 1
    · subst h1; decide
    · simp [labelOf, h0, h1]

/-- The label test `labelOf p == some "Fraud"` is the test `p == 1`. -/
theorem labelOf_beq_fraud (p : Int) :
    (labelOf p == some "Fraud") = (p == 1) := by
  by_cases h0 : p = 0
  · subst h0; decide
  · by_cases h1 : p = 1
    · subst h1; decide
    · simp [labelOf, h0, h1]

/-- The initial accumulator is below a `max`-fold. -/
theorem le_foldl_max (l : List Nat) (a : Nat) : a ≤ l.foldl max a := by
  induction l generalizing a with
  | nil => exact Nat.le_refl a
  | cons x xs ih => exact le_trans (Nat.le_max_left a x) (ih (max a x))

/-- Every element is below a `max`-fold. -/
theorem mem_le_foldl_max {x : Nat} {l : List Nat} (hx : x ∈ l) (a : Nat) :
    x ≤ l.foldl max a := by
  induction l generalizing a with
  | nil => cases hx
  | cons y ys ih =>
    rcases List.mem_cons.mp hx with h | h
    · subst h; exact le_trans (Nat.le_max_right a x) (le_foldl_max ys (max a x))
    · exact ih h (max a y)

/-- A `max`-fold is the accumulator or one of the elements. -/
theorem foldl_max_eq_or_mem (l : List Nat) (a : Nat) :
    l.foldl max a = a ∨ l.foldl max a ∈ l := by
  induction l generalizing a with
  | nil => exact Or.inl rfl
  | cons x xs ih =>
    rcases ih (max a x) with h | h
    · by_cases hax : x ≤ a
      · left
        show List.foldl max (max a x) xs = a
        rw [Nat.max_eq_left hax] at h ⊢
        exact h
      · have hax2 : a ≤ x := Nat.le_of_not_le hax
        right
        have hx : List.foldl max a (x :: xs) = x := by
          show List.foldl max (max a x) xs = x
          rw [Nat.max_eq_right hax2] at h ⊢
          exact h
        rw [hx]
        exact List.mem_cons_self x xs
    · right
      exact List.mem_cons_of_mem x h

/-- A non-empty table attains its maximum timestamp. -/
theorem exists_maxTs (f : List Row) (hne : f ≠ []) :
    ∃ r ∈ f, maxTs f = r.timestamp := by
  have hfold : maxTs f = (f.map fun r => r.timestamp).foldl max 0 := by
    simp [maxTs, List.foldl_map]
  rcases foldl_max_eq_or_mem (f.map fun r => r.timestamp) 0 with h | h
  · obtain ⟨r, hr⟩ := List.exists_mem_of_ne_nil f hne
    refine ⟨r, hr, ?_⟩
    have hle : r.timestamp ≤ (f.map fun s => s.timestamp).foldl max 0 :=
      mem_le_foldl_max (List.mem_map_of_mem _ hr) 0
    omega
  · rw [hfold]
    obtain ⟨r, hr, hrt⟩ := List.mem_map.mp h
    exact ⟨r, hr, hrt.symm⟩

/-- The `min`-fold is below the initial accumulator. -/
theorem foldl_min_le (l : List Nat) (a : Nat) : l.foldl min a ≤ a := by
  induction l generalizing a with
  | nil => exact Nat.le_refl a
  | cons x xs ih => exact le_trans (ih (min a x)) (Nat.min_le_left a x)

/-- One-hour resampling of a non-empty table is non-empty. -/
theorem hourlySeries_ne_nil (tbl : List Row) (hne : tbl ≠ []) :
    hourlySeries tbl ≠ [] := by
  cases hm : tbl.map (fun r => hourFloor r.timestamp) with
  | nil => exact absurd (List.map_eq_nil_iff.mp hm) hne
  | cons h hs =>
    have hlo : hs.foldl min h ≤ h := foldl_min_le hs h
    have hhi : h ≤ hs.foldl max h := le_foldl_max hs h
    simp only [hourlySeries, hm]
    intro hcontra
    rw [List.map_eq_nil_iff, List.range_eq_nil] at hcontra
    omega

/-- The alert flag, unfolded: `fraud_count / total >= 0.3` in `ℚ`. -/
theorem alert_unfold (f : List Row) :
    (computeSnapshot f).alert
      = decide ((3 : ℚ) / 10
          ≤ (((f.map fun r => r.prediction).sum : Int) : ℚ)
            / ((f.length : Nat) : ℚ)) := rfl

/-! ### Claim theorems -/

/-- Claim C1: for every non-empty filtered table, the high-fraud alert
is raised if and only if fraudCount divided by total is at least 0.30,
with the boundary inclusive; in particular, over predictions in
`{0, 1}`, a table of 10 rows with exactly 3 fraud rows raises the alert
and one with exactly 2 fraud rows does not. -/
theorem alert_iff_ratio_ge_threshold (f : List Row) (_hne : f ≠ []) :
    ((computeSnapshot f).alert = true ↔
      (3 : ℚ) / 10 ≤ ((computeSnapshot f).fraudCount : ℚ)
        / ((computeSnapshot f).total : ℚ))
    ∧ ((∀ r ∈ f, r.prediction = 0 ∨ r.prediction = 1) → f.length = 10 →
        (((f.filter fun r => r.prediction == 1).length = 3 →
            (computeSnapshot f).alert = true)
          ∧ ((f.filter fun r => r.prediction == 1).length = 2 →
            (computeSnapshot f).alert = false))) := by
  constructor
  · simp [computeSnapshot, decide_eq_true_iff]
  · intro h01 hlen
    have hsum := sum_pred_eq_count f h01
    constructor <;> intro hc
    · have hsum3 : (f.map fun r => r.prediction).sum = (3 : Int) := by
        rw [hsum, hc]; rfl
      rw [alert_unfold, hsum3, hlen]
      norm_num
    · have hsum2 : (f.map fun r => r.prediction).sum = (2 : Int) := by
        rw [hsum, hc]; rfl
      rw [alert_unfold, hsum2, hlen]
      norm_num

/-- Witness for C1: the concrete ten-row tables with three and with two
fraud rows. -/
theorem alert_iff_ratio_ge_threshold_witness :
    (computeSnapshot rows10a).alert = true
    ∧ (computeSnapshot rows10b).alert = false :=
  ⟨((alert_iff_ratio_ge_threshold rows10a (by decide)).2
      (by decide) (by decide)).1 (by decide),
   ((alert_iff_ratio_ge_threshold rows10b (by decide)).2
      (by decide) (by decide)).2 (by decide)⟩

/-- Claim C2: for every non-empty filtered table (over the data model's
prediction domain `{0, 1}`), the label counts sum to the total,
`accuracy = (1 - fraudCount/total) * 100`,
`fraudPercentage = fraudCount/total * 100`, and
`accuracy + fraudPercentage = 100` (exactly, in `ℚ`). -/
theorem stats_identities (f : List Row) (_hne : f ≠ [])
    (h01 : ∀ r ∈ f, r.prediction = 0 ∨ r.prediction = 1) :
    (computeSnapshot f).n0 + (computeSnapshot f).n1 = (computeSnapshot f).total
    ∧ (computeSnapshot f).accuracy
        = (1 - ((computeSnapshot f).fraudCount : ℚ)
            / ((computeSnapshot f).total : ℚ)) * 100
    ∧ (computeSnapshot f).fraudPct
        = ((computeSnapshot f).fraudCount : ℚ)
            / ((computeSnapshot f).total : ℚ) * 100
    ∧ (computeSnapshot f).accuracy + (computeSnapshot f).fraudPct = 100 := by
  refine ⟨?_, rfl, rfl, ?_⟩
  · have hn : (f.filter fun r => labelOf r.prediction == some "Normal")
        = f.filter fun r => r.prediction == 0 :=
      List.filter_congr fun r _ => labelOf_beq_normal r.prediction
    have hf : (f.filter fun r => labelOf r.prediction == some "Fraud")
        = f.filter fun r => r.prediction == 1 :=
      List.filter_congr fun r _ => labelOf_beq_fraud r.prediction
    simp only [computeSnapshot]
    rw [hn, hf]
    exact filter01_length f h01
  · simp only [computeSnapshot]
    ring

/-- Witness for C2: the specification's two-row worked example. -/
theorem stats_identities_witness :
    (computeSnapshot sampleRows).n0 + (computeSnapshot sampleRows).n1
      = (computeSnapshot sampleRows).total
    ∧ (computeSnapshot sampleRows).accuracy
        + (computeSnapshot sampleRows).fraudPct = 100 :=
  ⟨(stats_identities sampleRows (by decide) (by decide)).1,
   (stats_identities sampleRows (by decide) (by decide)).2.2.2⟩

/-- Claim C10: for every non-empty filtered table with predictions in
`{0, 1}`, the reported fraud count — defined as the sum of the
prediction column — equals the number of rows predicted 1, and total
minus fraud count equals the number of rows predicted 0. -/
theorem fraudCount_counts_ones (f : List Row) (_hne : f ≠ [])
    (h01 : ∀ r ∈ f, r.prediction = 0 ∨ r.prediction = 1) :
    (computeSnapshot f).fraudCount = (f.map fun r => r.prediction).sum
    ∧ (computeSnapshot f).fraudCount
        = ((f.filter fun r => r.prediction == 1).length : Int)
    ∧ ((computeSnapshot f).total : Int) - (computeSnapshot f).fraudCount
        = ((f.filter fun r => r.prediction == 0).length : Int) := by
  refine ⟨rfl, ?_, ?_⟩
  · exact sum_pred_eq_count f h01
  · have hp := filter01_length f h01
    show (f.length : Int) - (f.map fun r => r.prediction).sum = _
    rw [sum_pred_eq_count f h01]
    omega

/-- Witness for C10: the specification's two-row worked example. -/
theorem fraudCount_counts_ones_witness :
    (computeSnapshot sampleRows).fraudCount = 1
    ∧ ((computeSnapshot sampleRows).total : Int)
        - (computeSnapshot sampleRows).fraudCount = 1 := by
  have h := fraudCount_counts_ones sampleRows (by decide) (by decide)
  exact ⟨by rw [h.2.1]; decide, by rw [h.2.2]; decide⟩

/-- Claim C3: the filter keeps exactly the rows satisfying all present
predicates — `All` removes nothing on prediction, a numeric filter keeps
rows with that exact prediction, a start date keeps rows with
`timestamp >= startDate` at start of day, and an end date keeps rows
with `timestamp <= endDate` at the literal date value (midnight), so a
row timestamped after midnight on the end date is excluded. -/
theorem filter_semantics (tbl : List Row) (pf : PredFilter)
    (sd ed : Option Nat) (r : Row) :
    r ∈ applyFilter tbl pf sd ed ↔
      r ∈ tbl ∧ (∀ v, pf = .value v → r.prediction = v)
        ∧ (∀ d, sd = some d → d * 86400 ≤ r.timestamp)
        ∧ (∀ d, ed = some d → r.timestamp ≤ d * 86400) :=
  mem_applyFilter tbl pf sd ed r

/-- Witness for C3: a concrete fraud row passes the fraud filter inside
an enclosing date range, and (end-date quirk) a row at 10:00 on day 100
is excluded by the end date 100 because the bound is midnight. -/
theorem filter_semantics_witness :
    ((⟨2, 999, 1, 8676300⟩ : Row) ∈ sampleRows
      ∧ (⟨2, 999, 1, 8676300⟩ : Row).prediction = 1)
    ∧ (⟨2, 999, 1, 8676300⟩ : Row) ∉ applyFilter sampleRows .all none (some 100) :=
  ⟨(fun h => ⟨h.1, h.2.1 1 rfl⟩)
      ((filter_semantics sampleRows (.value 1) (some 100) (some 101)
          ⟨2, 999, 1, 8676300⟩).mp (by decide)),
   fun h => by
    have := ((filter_semantics sampleRows .all none (some 100)
        ⟨2, 999, 1, 8676300⟩).mp h).2.2.2 100 rfl
    exact absurd this (by decide)⟩

/-- Claim C4: `load_data` is total (it is a Lean function, so it cannot
raise), declares the four columns in every case, and on a missing file,
a failed read, or any failed timestamp coercion it returns the empty
frame — zero rows, no partially-parsed rows. -/
theorem load_data_fails_closed (st : Storage) :
    (load_data st).cols = theColumns
    ∧ ((st = .missing ∨ st = .readError
          ∨ ∃ raws, st = .content raws ∧ raws.mapM parseRaw = none)
        → load_data st = emptyFrame) := by
  constructor
  · cases st with
    | missing => rfl
    | readError => rfl
    | content raws =>
      cases hm : raws.mapM parseRaw with
      | none => simp only [load_data]; rw [hm]; rfl
      | some rows => simp only [load_data]; rw [hm]
  · rintro (h | h | ⟨raws, hst, hmap⟩)
    · subst h; rfl
    · subst h; rfl
    · subst hst; simp only [load_data]; rw [hmap]

/-- Witness for C4: a two-row file whose second timestamp is
unparseable loads as the empty frame — the parseable first row is not
returned. -/
theorem load_data_fails_closed_witness :
    load_data (.content [⟨7, 5, 0, some 60⟩, ⟨8, 5, 1, none⟩]) = emptyFrame :=
  (load_data_fails_closed (.content [⟨7, 5, 0, some 60⟩, ⟨8, 5, 1, none⟩])).2
    (Or.inr (Or.inr ⟨[⟨7, 5, 0, some 60⟩, ⟨8, 5, 1, none⟩], rfl, by decide⟩))

/-- Claim C5: whenever the filtered table is empty — including an empty
load under any filter, and any filter matching zero rows — the pipeline
returns one of the two "no data" results and no aggregate is computed;
every snapshot that is produced has a positive total, so the divisions
by `total` are never division by zero. -/
theorem empty_filter_no_aggregation (st : Storage) (pf : PredFilter)
    (sd ed : Option Nat) :
    (applyFilter (load_data st).rows pf sd ed = [] →
      (update_dashboard st pf sd ed = .noData "No data yet"
        ∨ update_dashboard st pf sd ed = .noData "No data found for filters."))
    ∧ (∀ s, update_dashboard st pf sd ed = .snapshot s → 0 < s.total) := by
  constructor
  · intro hf
    by_cases hl : (load_data st).rows.isEmpty
    · left; simp [update_dashboard, hl]
    · right; simp [update_dashboard, hl, hf]
  · intro s hs
    by_cases hl : (load_data st).rows.isEmpty
    · simp [update_dashboard, hl] at hs
    · by_cases hfe : (applyFilter (load_data st).rows pf sd ed).isEmpty
      · simp [update_dashboard, hl, hfe] at hs
      · simp [update_dashboard, hl, hfe] at hs
        have hne : applyFilter (load_data st).rows pf sd ed ≠ [] := by
          simpa using hfe
        have htot : s.total
            = (applyFilter (load_data st).rows pf sd ed).length := by
          rw [← hs]; rfl
        rw [htot]
        exact List.length_pos.mpr hne

/-- Witness for C5: the sample table under a prediction filter matching
no rows yields a "no data" result. -/
theorem empty_filter_no_aggregation_witness :
    update_dashboard sampleStorage (.value 5) none none
        = .noData "No data yet"
      ∨ update_dashboard sampleStorage (.value 5) none none
        = .noData "No data found for filters." :=
  (empty_filter_no_aggregation sampleStorage (.value 5) none none).1 (by decide)

/-- Claim C6: for every non-empty filtered table, "today" is the
calendar date of the maximum timestamp present in the table (it is
attained by a row and no row's date exceeds it — the wall clock plays
no part), "yesterday" is the immediately preceding calendar day; and
when every timestamp falls on one single calendar date, the yesterday
hourly fraud series is the empty sequence while the today series is
non-empty whenever fraud rows exist. -/
theorem today_yesterday_semantics (f : List Row) (hne : f ≠ []) :
    ((computeSnapshot f).today = dateOf (maxTs f)
      ∧ (∃ r ∈ f, (computeSnapshot f).today = dateOf r.timestamp)
      ∧ (∀ r ∈ f, dateOf r.timestamp ≤ (computeSnapshot f).today))
    ∧ (computeSnapshot f).yesterday = ((computeSnapshot f).today : Int) - 1
    ∧ (∀ d, (∀ r ∈ f, dateOf r.timestamp = d) →
        ((computeSnapshot f).yesterdayFraud = []
          ∧ ((∃ r ∈ f, r.prediction = 1) →
              (computeSnapshot f).todayFraud ≠ []))) := by
  refine ⟨⟨rfl, ?_, ?_⟩, rfl, ?_⟩
  · obtain ⟨r, hr, hmr⟩ := exists_maxTs f hne
    refine ⟨r, hr, ?_⟩
    show dateOf (maxTs f) = dateOf r.timestamp
    rw [hmr]
  · intro r hr
    have hfold : maxTs f = (f.map fun s => s.timestamp).foldl max 0 := by
      simp [maxTs, List.foldl_map]
    have hmem : r.timestamp ≤ (f.map fun s => s.timestamp).foldl max 0 :=
      mem_le_foldl_max (List.mem_map_of_mem _ hr) 0
    have hle : r.timestamp ≤ maxTs f := by omega
    show r.timestamp / 86400 ≤ maxTs f / 86400
    exact Nat.div_le_div_right hle
  · intro d hall
    have htoday : todayOf f = d := by
      obtain ⟨r, hr, hmr⟩ := exists_maxTs f hne
      rw [todayOf, hmr]
      exact hall r hr
    constructor
    · show yesterdaySeries f = []
      unfold yesterdaySeries
      have hempty : rowsOnDate f ((todayOf f : Int) - 1) = [] := by
        unfold rowsOnDate
        rw [List.filter_eq_nil_iff]
        intro r hr
        have hd := hall r hr
        simp only [beq_iff_eq, hd, htoday]
        omega
      rw [hempty]
      rfl
    · rintro ⟨r0, hr0, hp0⟩
      show todaySeries f ≠ []
      unfold todaySeries
      have hself : rowsOnDate f ((todayOf f : Nat) : Int) = f := by
        unfold rowsOnDate
        rw [List.filter_eq_self]
        intro r hr
        simp [hall r hr, htoday]
      rw [hself]
      have hm : r0 ∈ fraudRows f :=
        List.mem_filter.mpr ⟨hr0, by simp [hp0]⟩
      exact hourlySeries_ne_nil (fraudRows f) (List.ne_nil_of_mem hm)

/-- Witness for C6: on the two-date table, today is day 101 — the date
of the maximum timestamp, not of the earlier row — and yesterday is
day 100; on the single-date sample table the yesterday series is empty
while the today series is not. -/
theorem today_yesterday_semantics_witness :
    ((computeSnapshot sampleRows2).today = 101
      ∧ (computeSnapshot sampleRows2).yesterday = 100)
    ∧ ((computeSnapshot sampleRows).yesterdayFraud = []
      ∧ (computeSnapshot sampleRows).todayFraud ≠ []) := by
  have h2 := today_yesterday_semantics sampleRows2 (by decide)
  have h1 := today_yesterday_semantics sampleRows (by decide)
  refine ⟨⟨?_, ?_⟩, ?_, ?_⟩
  · rw [h2.1.1]; decide
  · rw [h2.2.1, h2.1.1]; decide
  · exact (h1.2.2 100 (by decide)).1
  · exact (h1.2.2 100 (by decide)).2 (by decide)

/-- Membership in a value-filtered table, specialized. -/
theorem mem_applyFilter_value (tbl : List Row) (v : Int) (sd ed : Option Nat)
    (r : Row) :
    r ∈ applyFilter tbl (.value v) sd ed ↔
      r ∈ tbl ∧ r.prediction = v
        ∧ (∀ d, sd = some d → d * 86400 ≤ r.timestamp)
        ∧ (∀ d, ed = some d → r.timestamp ≤ d * 86400) := by
  rw [mem_applyFilter]
  constructor
  · rintro ⟨h1, h2, h3, h4⟩
    exact ⟨h1, h2 v rfl, h3, h4⟩
  · rintro ⟨h1, h2, h3, h4⟩
    refine ⟨h1, ?_, h3, h4⟩
    intro v2 hv
    injection hv with hv2
    subst hv2
    exact h2

/-- Membership in an all-filtered table, specialized. -/
theorem mem_applyFilter_all (tbl : List Row) (sd ed : Option Nat) (r : Row) :
    r ∈ applyFilter tbl .all sd ed ↔
      r ∈ tbl
        ∧ (∀ d, sd = some d → d * 86400 ≤ r.timestamp)
        ∧ (∀ d, ed = some d → r.timestamp ≤ d * 86400) := by
  rw [mem_applyFilter]
  constructor
  · rintro ⟨h1, _, h3, h4⟩
    exact ⟨h1, h3, h4⟩
  · rintro ⟨h1, h3, h4⟩
    refine ⟨h1, ?_, h3, h4⟩
    intro v hv
    exact PredFilter.noConfusion hv

/-- Claim C7: over predictions in `{0, 1}` and the same date settings,
the Normal filter and the Fraud filter keep disjoint row sets whose
union, as a set, is exactly what the All filter keeps. -/
theorem normal_fraud_partition (tbl : List Row) (sd ed : Option Nat)
    (h01 : ∀ r ∈ tbl, r.prediction = 0 ∨ r.prediction = 1) :
    (∀ r, ¬(r ∈ applyFilter tbl (.value 0) sd ed
        ∧ r ∈ applyFilter tbl (.value 1) sd ed))
    ∧ (∀ r, r ∈ applyFilter tbl .all sd ed ↔
        (r ∈ applyFilter tbl (.value 0) sd ed
          ∨ r ∈ applyFilter tbl (.value 1) sd ed)) := by
  constructor
  · rintro r ⟨h0, h1⟩
    have e0 := ((mem_applyFilter_value tbl 0 sd ed r).mp h0).2.1
    have e1 := ((mem_applyFilter_value tbl 1 sd ed r).mp h1).2.1
    omega
  · intro r
    constructor
    · intro h
      obtain ⟨hmem, hsd, hed⟩ := (mem_applyFilter_all tbl sd ed r).mp h
      rcases h01 r hmem with hp | hp
      · exact Or.inl ((mem_applyFilter_value tbl 0 sd ed r).mpr
          ⟨hmem, hp, hsd, hed⟩)
      · exact Or.inr ((mem_applyFilter_value tbl 1 sd ed r).mpr
          ⟨hmem, hp, hsd, hed⟩)
    · rintro (h | h)
      · obtain ⟨hmem, _, hsd, hed⟩ := (mem_applyFilter_value tbl 0 sd ed r).mp h
        exact (mem_applyFilter_all tbl sd ed r).mpr ⟨hmem, hsd, hed⟩
      · obtain ⟨hmem, _, hsd, hed⟩ := (mem_applyFilter_value tbl 1 sd ed r).mp h
        exact (mem_applyFilter_all tbl sd ed r).mpr ⟨hmem, hsd, hed⟩

/-- Witness for C7: on the sample table, each row is kept by the All
filter exactly when it is kept by the Normal filter or by the Fraud
filter. -/
theorem normal_fraud_partition_witness :
    (⟨1, 50, 0, 8676000⟩ : Row) ∈ applyFilter sampleRows .all none none
    ∧ (⟨2, 999, 1, 8676300⟩ : Row) ∈ applyFilter sampleRows .all none none :=
  ⟨((normal_fraud_partition sampleRows none none (by decide)).2
      ⟨1, 50, 0, 8676000⟩).mpr (Or.inl (by decide)),
   ((normal_fraud_partition sampleRows none none (by decide)).2
      ⟨2, 999, 1, 8676300⟩).mpr (Or.inr (by decide))⟩

/-- Claim C8: the export runs the same filter as the dashboard, always
succeeds, serializes all four fields of the filtered rows in their
current order after a header line, names the file with the embedded
generation timestamp, and yields a header-only file when zero rows
match. -/
theorem export_refines_dashboard (st : Storage) (pf : PredFilter)
    (sd ed : Option Nat) (now : String) :
    exportFilter (load_data st).rows pf sd ed
        = applyFilter (load_data st).rows pf sd ed
    ∧ (download_report st pf sd ed now).2
        = csvHeader :: (applyFilter (load_data st).rows pf sd ed).map rowCsv
    ∧ (applyFilter (load_data st).rows pf sd ed = [] →
        (download_report st pf sd ed now).2 = [csvHeader])
    ∧ (download_report st pf sd ed now).1
        = "fraud_report_" ++ now ++ ".csv" := by
  refine ⟨exportFilter_eq_applyFilter _ _ _ _, rfl, ?_, rfl⟩
  intro h
  show csvHeader :: (exportFilter (load_data st).rows pf sd ed).map rowCsv
      = [csvHeader]
  rw [exportFilter_eq_applyFilter, h]
  rfl

/-- Witness for C8: exporting the sample data with an end date
preceding every row produces a header-only file. -/
theorem export_refines_dashboard_witness :
    (download_report sampleStorage .all none (some 99) "20240101_000000").2
      = [csvHeader] :=
  (export_refines_dashboard sampleStorage .all none (some 99)
    "20240101_000000").2.2.1 (by decide)

/-- Masking never touches the loaded object. -/
theorem maskS_loaded (s : RunState) (p : Row → Bool) :
    (maskS s p).loaded = s.loaded := rfl

/-- A column assignment never changes any object's rows. -/
theorem setColS_loaded_rows (s : RunState) (c : String) :
    (setColS s c).loaded.rows = s.loaded.rows := by
  unfold setColS; split_ifs <;> rfl

/-- A column assignment does not change which object `df` denotes. -/
theorem setColS_aliased (s : RunState) (c : String) :
    (setColS s c).aliased = s.aliased := by
  unfold setColS; split_ifs with h <;> simp [h]

/-- A column assignment on a non-aliased `df` leaves the loaded object
unchanged. -/
theorem setColS_not_aliased (s : RunState) (c : String)
    (h : s.aliased = false) : (setColS s c).loaded = s.loaded := by
  unfold setColS; rw [h]; rfl

/-- The filter stage never touches the loaded object. -/
theorem filterStage_loaded (s0 : RunState) (pf : PredFilter)
    (sd ed : Option Nat) : (filterStage s0 pf sd ed).loaded = s0.loaded := by
  cases pf <;> cases sd <;> cases ed <;> rfl

/-- As soon as any filter line fires, `df` denotes a masked copy. -/
theorem filterStage_not_aliased (s0 : RunState) (pf : PredFilter)
    (sd ed : Option Nat) (h : ¬(pf = .all ∧ sd = none ∧ ed = none)) :
    (filterStage s0 pf sd ed).aliased = false := by
  cases pf <;> cases sd <;> cases ed <;>
    first
      | rfl
      | exact absurd ⟨rfl, rfl, rfl⟩ h

/-- The column assignments change no object's rows. -/
theorem colStage_loaded_rows (s : RunState) :
    (colStage s).loaded.rows = s.loaded.rows := by
  unfold colStage
  rw [setColS_loaded_rows, setColS_loaded_rows, setColS_loaded_rows,
    setColS_loaded_rows]

/-- On a non-aliased `df`, the column assignments leave the loaded
object unchanged. -/
theorem colStage_not_aliased (s : RunState) (h : s.aliased = false) :
    (colStage s).loaded = s.loaded := by
  have h1 : (setColS s "Label").aliased = false := by
    rw [setColS_aliased]; exact h
  have h2 : (setColS (setColS s "Label") "Time").aliased = false := by
    rw [setColS_aliased]; exact h1
  have h3 : (setColS (setColS (setColS s "Label") "Time") "Hour").aliased
      = false := by
    rw [setColS_aliased]; exact h2
  unfold colStage
  rw [setColS_not_aliased _ _ h3, setColS_not_aliased _ _ h2,
    setColS_not_aliased _ _ h1, setColS_not_aliased _ _ h]

/-- The loaded table's records — its rows and their four fields — are
unchanged by every run. -/
theorem update_run_loaded_rows (st : Storage) (pf : PredFilter)
    (sd ed : Option Nat) :
    (update_run st pf sd ed).loaded.rows = (load_data st).rows := by
  unfold update_run
  dsimp only
  split_ifs
  · rfl
  · rw [filterStage_loaded]
  · rw [colStage_loaded_rows, filterStage_loaded]

/-- Claim C9, amended: every row-subsetting stage produces a new
derived frame and no stage ever modifies the loaded table's records or
original four fields; however the label-mapping and heatmap stages
assign columns to the frame `df` denotes in place, which is the loaded
frame itself exactly when the prediction filter is All and no date is
set — with any filter active the loaded frame object is left entirely
unchanged. -/
theorem loaded_frame_mutation_scope (st : Storage) (pf : PredFilter)
    (sd ed : Option Nat) :
    (update_run st pf sd ed).loaded.rows = (load_data st).rows
    ∧ (¬(pf = .all ∧ sd = none ∧ ed = none) →
        (update_run st pf sd ed).loaded = ⟨(load_data st).rows, []⟩) := by
  refine ⟨update_run_loaded_rows st pf sd ed, ?_⟩
  intro h
  unfold update_run
  dsimp only
  split_ifs
  · rfl
  · rw [filterStage_loaded]
  · rw [colStage_not_aliased _ (filterStage_not_aliased _ pf sd ed h),
      filterStage_loaded]

/-- Counterexample to claim C9 as stated: on the sample table with the
All filter and no dates, the run adds the `Label`, `Time`, `Hour` and
`Day` columns to the loaded frame object itself, so one pipeline run
does mutate the loaded table in place. -/
theorem pipeline_mutates_loaded_frame :
    (update_run sampleStorage .all none none).loaded
      ≠ ⟨(load_data sampleStorage).rows, []⟩
    ∧ (update_run sampleStorage .all none none).loaded.extra
      = ["Label", "Time", "Hour", "Day"] := by decide

/-- Witness for C9 (amended): with the Fraud filter active, the loaded
frame object survives the run unchanged. -/
theorem loaded_frame_mutation_scope_witness :
    (update_run sampleStorage (.value 1) none none).loaded
      = ⟨(load_data sampleStorage).rows, []⟩ :=
  (loaded_frame_mutation_scope sampleStorage (.value 1) none none).2
    (by simp)
